import Mathlib

/-!
Verification of the worker-marketplace / workflow-runtime core.

Shallow embedding of the Python sources:
  * `src/lgp/observability/sanitizers.py`   (output sanitiser)
  * `src/workers/enforcement/registry.py`   (witness registry + built-ins)
  * `src/workers/enforcement/witness.py`    (automatic witness enforcement)
  * `src/workers/claude_code_worker.py`     (void / execute contract)
  * `src/workers/factory.py`                (journey registry)
  * `src/workers/definitions/validator.py`  (declarative definition validator)
  * `src/workers/mcp_server.py`             (tool interface, execute_in_worker)
  * `src/runtime/executor.py`               (agent node injection)
  * `src/lgp/agents/claude_code_provider.py` (CLI provider, session continuity)

Python strings are modelled as Lean `String` (a wrapper around `List Char`);
`len` is the character count, `str.encode` length is the UTF-8 byte count.
Python dicts are modelled as association lists preserving insertion order.
Wall-clock times and uuid fragments are passed in explicitly.
-/

namespace LGP

/-- Python-ish runtime values as they appear in the dictionaries this code
builds and sanitises: strings, ints, floats, bools, None, lists, dicts. -/
inductive PyValue where
  | vstr (s : String)
  | vint (n : Int)
  | vfloat (q : ℚ)
  | vbool (b : Bool)
  | vnone
  | vlist (xs : List PyValue)
  | vdict (entries : List (String × PyValue))

/-- Python `len` on a string: number of characters. -/
def pyLen (s : String) : Nat := s.data.length

/-- Python `s[:n]` on a string. -/
def pyTake (s : String) (n : Nat) : String := ⟨s.data.take n⟩

/-! ## `src/lgp/observability/sanitizers.py` : `sanitize_for_dashboard` -/

/-- The per-element truncation rule the sanitiser applies to the direct
elements of dicts and lists: strings longer than `max_length` become
`value[:max_length] + truncation_suffix`, everything else is unchanged. -/
def truncVal (max_length : Nat) (truncation_suffix : String) : PyValue → PyValue
  | .vstr v =>
    if pyLen v > max_length then .vstr (pyTake v max_length ++ truncation_suffix)
    else .vstr v
  | v => v

/-- Metadata entries the sanitiser records for one dict entry. -/
def dictEntryMeta (max_length : Nat) : String × PyValue → List (String × PyValue)
  | (key, .vstr v) =>
    if pyLen v > max_length then
      [(key ++ "_truncated", .vbool true), (key ++ "_full_length", .vint (pyLen v))]
    else []
  | _ => []

/-- Metadata entries the sanitiser records for one list item (with its index). -/
def listItemMeta (max_length : Nat) : Nat × PyValue → List (String × PyValue)
  | (i, .vstr v) =>
    if pyLen v > max_length then
      [("item_" ++ toString i ++ "_truncated", .vbool true),
       ("item_" ++ toString i ++ "_full_length", .vint (pyLen v))]
    else []
  | _ => []

/-- `sanitize_for_dashboard(data, max_length=2000, truncation_suffix="... [truncated]")`.

Returns `(sanitized_data, metadata)`.  Top-level strings longer than the limit
are truncated with the three `output_*` metadata keys; dict and list elements
are processed by the same per-element rule the Python loops apply (string
elements over the limit truncated and logged in metadata, everything else
copied unchanged); other values pass through untouched. -/
def sanitize_for_dashboard (data : PyValue) (max_length : Nat := 2000)
    (truncation_suffix : String := "... [truncated]") :
    PyValue × List (String × PyValue) :=
  match data with
  | .vstr s =>
    if pyLen s > max_length then
      let sanitized := pyTake s max_length ++ truncation_suffix
      (.vstr sanitized,
       [("output_truncated", .vbool true),
        ("output_full_length", .vint (pyLen s)),
        ("output_displayed_length", .vint (pyLen sanitized))])
    else (data, [])
  | .vdict entries =>
    (.vdict (entries.map fun kv => (kv.1, truncVal max_length truncation_suffix kv.2)),
     entries.flatMap (dictEntryMeta max_length))
  | .vlist items =>
    (.vlist (items.map (truncVal max_length truncation_suffix)),
     items.enum.flatMap (listItemMeta max_length))
  | _ => (data, [])

/-- A truncated string re-truncates to itself: taking the first
`max_length` characters of `s[:max_length] + suffix` gives back
`s[:max_length]` whenever `s` was longer than the limit. -/
theorem truncVal_idem (L : Nat) (suf : String) (v : PyValue) :
    truncVal L suf (truncVal L suf v) = truncVal L suf v := by
  cases v with
  | vstr s =>
    by_cases h : pyLen s > L
    · have hlen : (s.data.take L).length = L := by
        simp [List.length_take]
        exact Nat.le_of_lt h
      simp only [truncVal, h, if_pos]
      by_cases h2 : pyLen (pyTake s L ++ suf) > L
      · simp only [h2, if_pos]
        have htake : pyTake (pyTake s L ++ suf) L = pyTake s L := by
          show (⟨((⟨s.data.take L⟩ : String) ++ suf).data.take L⟩ : String)
              = (⟨s.data.take L⟩ : String)
          have hdata : ((⟨s.data.take L⟩ : String) ++ suf).data
              = s.data.take L ++ suf.data := rfl
          rw [hdata, List.take_append_eq_append_take, hlen, Nat.sub_self, List.take_zero,
              List.append_nil, List.take_of_length_le (Nat.le_of_eq hlen)]
        rw [htake]
      · simp [h2]
    · simp [truncVal, h]
  | vint n => rfl
  | vfloat q => rfl
  | vbool b => rfl
  | vnone => rfl
  | vlist xs => rfl
  | vdict es => rfl

/-- The data component of the sanitiser agrees with the per-element rule on
top-level strings. -/
theorem sanitize_fst_vstr (L : Nat) (suf : String) (s : String) :
    (sanitize_for_dashboard (.vstr s) L suf).1 = truncVal L suf (.vstr s) := by
  by_cases h : pyLen s > L <;> simp [sanitize_for_dashboard, truncVal, h]

/-- C8: every string field whose length exceeds the limit is replaced by its
first `max_length` characters plus the truncation suffix with its original
length recorded in the metadata; dicts and lists are sanitised element-wise
by the same rule; strings within the limit and non-string values pass through
unchanged (`sanitize_for_dashboard`, src/lgp/observability/sanitizers.py). -/
theorem c8_sanitizer_truncation (L : Nat) (suf : String) (data : PyValue) :
    (∀ s, data = .vstr s → pyLen s > L →
       (sanitize_for_dashboard data L suf).1 = .vstr (pyTake s L ++ suf) ∧
       ("output_full_length", PyValue.vint (pyLen s)) ∈ (sanitize_for_dashboard data L suf).2) ∧
    (∀ s, data = .vstr s → pyLen s ≤ L → sanitize_for_dashboard data L suf = (data, [])) ∧
    (∀ entries, data = .vdict entries →
       (sanitize_for_dashboard data L suf).1
         = .vdict (entries.map fun kv => (kv.1, truncVal L suf kv.2)) ∧
       ∀ k s, (k, PyValue.vstr s) ∈ entries → pyLen s > L →
         (k ++ "_full_length", PyValue.vint (pyLen s)) ∈ (sanitize_for_dashboard data L suf).2) ∧
    (∀ items, data = .vlist items →
       (sanitize_for_dashboard data L suf).1 = .vlist (items.map (truncVal L suf)) ∧
       ∀ (i : Nat) (s : String), items[i]? = some (PyValue.vstr s) → pyLen s > L →
         ("item_" ++ toString i ++ "_full_length", PyValue.vint (pyLen s))
           ∈ (sanitize_for_dashboard data L suf).2) ∧
    ((∀ n, data = .vint n → sanitize_for_dashboard data L suf = (data, [])) ∧
     (∀ q, data = .vfloat q → sanitize_for_dashboard data L suf = (data, [])) ∧
     (∀ b, data = .vbool b → sanitize_for_dashboard data L suf = (data, [])) ∧
     (data = .vnone → sanitize_for_dashboard data L suf = (data, []))) := by
  refine ⟨?_, ?_, ?_, ?_, ?_, ?_, ?_, ?_⟩
  · rintro s rfl h
    constructor
    · simp [sanitize_for_dashboard, h]
    · simp [sanitize_for_dashboard, h]
  · rintro s rfl h
    simp [sanitize_for_dashboard, Nat.not_lt.mpr h]
  · rintro entries rfl
    refine ⟨rfl, ?_⟩
    intro k s hmem h
    simp only [sanitize_for_dashboard]
    rw [List.mem_flatMap]
    exact ⟨(k, .vstr s), hmem, by simp [dictEntryMeta, h]⟩
  · rintro items rfl
    refine ⟨rfl, ?_⟩
    intro i s hget h
    simp only [sanitize_for_dashboard]
    rw [List.mem_flatMap]
    refine ⟨(i, .vstr s), ?_, by simp [listItemMeta, h]⟩
    rw [List.mem_enum_iff_getElem?]
    exact hget
  · rintro n rfl; rfl
  · rintro q rfl; rfl
  · rintro b rfl; rfl
  · rintro rfl; rfl

/-- Witness for C8 at a concrete input: a dict with one over-limit string
field and one int field, limit 5. -/
theorem c8_sanitizer_instance :
    (sanitize_for_dashboard (.vdict [("a", .vstr "0123456789"), ("b", .vint 7)]) 5 "..").1
        = .vdict [("a", .vstr "01234.."), ("b", .vint 7)] ∧
    ("a_full_length", PyValue.vint 10)
        ∈ (sanitize_for_dashboard (.vdict [("a", .vstr "0123456789"), ("b", .vint 7)]) 5 "..").2 := by
  have h := (c8_sanitizer_truncation 5 ".." (.vdict [("a", .vstr "0123456789"), ("b", .vint 7)])).2.2.1
      [("a", .vstr "0123456789"), ("b", .vint 7)] rfl
  refine ⟨?_, ?_⟩
  · rw [h.1]; rfl
  · have := h.2 "a" "0123456789" (by simp) (by decide)
    simpa using this

/-- C10: the sanitiser is idempotent on its data component; re-sanitising
already-sanitised output never changes it further. -/
theorem c10_sanitizer_idempotent (d : PyValue) (L : Nat) (suf : String) (hL : 1 ≤ L) :
    (sanitize_for_dashboard (sanitize_for_dashboard d L suf).1 L suf).1
      = (sanitize_for_dashboard d L suf).1 := by
  cases d with
  | vstr s =>
    rw [sanitize_fst_vstr]
    obtain ⟨t, ht⟩ : ∃ t, truncVal L suf (.vstr s) = .vstr t := by
      by_cases h : pyLen s > L <;> simp [truncVal, h]
    rw [ht, sanitize_fst_vstr]
    have hidem := truncVal_idem L suf (.vstr s)
    rw [ht] at hidem
    exact hidem
  | vdict entries =>
    simp only [sanitize_for_dashboard, List.map_map]
    congr 1
    apply List.map_congr_left
    intro kv _
    simp [Function.comp, truncVal_idem]
  | vlist items =>
    simp only [sanitize_for_dashboard, List.map_map]
    congr 1
    apply List.map_congr_left
    intro x _
    simp [Function.comp, truncVal_idem]
  | vint n => rfl
  | vfloat q => rfl
  | vbool b => rfl
  | vnone => rfl

/-- Witness for C10 at a concrete input: limit 3, a list holding a long
string; the second sanitisation pass returns the first pass's data
unchanged. -/
theorem c10_idempotent_instance :
    (1 ≤ 3) ∧
    (sanitize_for_dashboard (sanitize_for_dashboard (.vlist [.vstr "abcdefgh"]) 3 "[t]").1 3 "[t]").1
      = (sanitize_for_dashboard (.vlist [.vstr "abcdefgh"]) 3 "[t]").1 :=
  ⟨by decide, c10_sanitizer_idempotent (.vlist [.vstr "abcdefgh"]) 3 "[t]" (by decide)⟩

/-! ## Worker definitions (`src/workers/definitions/schema.py`) -/

/-- `WorkerConstraint` dataclass. -/
structure WorkerConstraint where
  constraint_id : String
  witness : String
  feedback : String
  value : String
deriving DecidableEq

/-- `WorkerIdentity` dataclass. -/
structure WorkerIdentity where
  name : String
  system_prompt : String
  onboarding_steps : List String := []
deriving DecidableEq

/-- `WorkerRuntime` dataclass. -/
structure WorkerRuntime where
  container : String
  workspace_template : String
  tools : List String := []
  session_persistence : Bool := true
deriving DecidableEq

/-- `WorkerAudit` dataclass. -/
structure WorkerAudit where
  log_all_actions : Bool := true
  execution_channel : String := "langfuse"
  retention_days : Nat := 90
deriving DecidableEq

/-- `WorkerDefinition` dataclass (trust_level is a plain string checked by the
validator). -/
structure WorkerDefinition where
  worker_id : String
  identity : WorkerIdentity
  constraints : List WorkerConstraint := []
  runtime : WorkerRuntime
  trust_level : String := "sandboxed"
  audit : WorkerAudit := {}
  tools : List String := []
deriving DecidableEq

/-! ## Actions and the witness registry
(`src/workers/enforcement/registry.py`) -/

/-- The fields of an action dictionary that the workers and the built-in
witnesses read (`action.get(...)` yields `none` for an absent key). -/
structure Action where
  action_id : Option String := none
  type : Option String := none
  content : Option String := none
  target : Option String := none
  command : Option String := none
deriving DecidableEq

/-- Python `len(s.encode())`: the UTF-8 byte length of a string. -/
def utf8Len (s : String) : Nat := (s.data.map Char.utf8Size).sum

/-- Python `needle in hay` on lists of characters. -/
def listContainsSub (needle : List Char) : List Char → Bool
  | [] => needle.isEmpty
  | c :: rest => needle.isPrefixOf (c :: rest) || listContainsSub needle rest

/-- Python `needle in hay` on strings (substring containment). -/
def strContains (hay needle : String) : Bool := listContainsSub needle.data hay.data

/-- Python `hay.startswith(pre)`. -/
def strStartsWith (hay pre : String) : Bool := pre.data.isPrefixOf hay.data

/-- Built-in witness `verify_file_size_within_limit`: write actions whose
content exceeds 1,000,000 UTF-8 bytes produce a warning naming both sizes. -/
def verify_file_size_within_limit (action : Action) : List String :=
  if action.type == some "write" then
    let content := action.content.getD ""
    let size_bytes := utf8Len content
    let max_size : Nat := 1000000
    if size_bytes > max_size then
      ["File size " ++ toString size_bytes ++ " bytes exceeds limit "
        ++ toString max_size ++ " bytes"]
    else []
  else []

/-- Built-in witness `verify_search_count_within_hourly_limit`: currently a
placeholder that always passes. -/
def verify_search_count_within_hourly_limit (_action : Action) : List String := []

/-- Built-in witness `verify_workspace_isolation`: read/write/delete actions
whose target escapes the workspace produce a warning. -/
def verify_workspace_isolation (action : Action) : List String :=
  match action.type with
  | some t =>
    if ["read", "write", "delete"].contains t then
      let target := action.target.getD ""
      if strContains target "../" || strStartsWith target "/" then
        ["Path traversal detected: " ++ target ++ " (must stay within workspace)"]
      else []
    else []
  | none => []

/-- Built-in witness `verify_no_network_access`: network-style actions are
denied for sandboxed workers. -/
def verify_no_network_access (action : Action) : List String :=
  match action.type with
  | some t =>
    if ["web_search", "http_request", "api_call"].contains t then
      ["Network access denied: " ++ t ++ " (worker is sandboxed)"]
    else []
  | none => []

/-- A registered witness function: `async def witness(action) -> list of
warnings`, which may also raise (`Except.error`). -/
abbrev WitnessFn := Action → Except Unit (List String)

/-- The witness registry: `witness_id → witness function`
(`WitnessRegistry._witnesses`, modelled as an association list). -/
abbrev WitnessReg := List (String × WitnessFn)

/-- The module-level registry with the four built-in witnesses registered
when the module loads (`src/workers/enforcement/registry.py`, bottom). -/
def builtinWitnessReg : WitnessReg :=
  [("verify_file_size_within_limit", fun a => .ok (verify_file_size_within_limit a)),
   ("verify_search_count_within_hourly_limit",
     fun a => .ok (verify_search_count_within_hourly_limit a)),
   ("verify_workspace_isolation", fun a => .ok (verify_workspace_isolation a)),
   ("verify_no_network_access", fun a => .ok (verify_no_network_access a))]

/-! ## Automatic enforcement (`src/workers/enforcement/witness.py`) -/

/-- One iteration of the `WitnessEnforcement.verify` loop: unregistered
witnesses are logged and skipped, a raising witness contributes a
witness-execution-error warning, a passing witness contributes its warnings. -/
def verifyStep (reg : WitnessReg) (action : Action)
    (all_warnings : List String) (constraint : WorkerConstraint) : List String :=
  match reg.lookup constraint.witness with
  | none => all_warnings
  | some witness_fn =>
    match witness_fn action with
    | .ok warnings => if warnings.isEmpty then all_warnings else all_warnings ++ warnings
    | .error _ => all_warnings ++ ["Witness execution error: " ++ constraint.witness]

/-- `WitnessEnforcement.verify(worker_id, action, constraints)`. -/
def witnessVerify (reg : WitnessReg) (_worker_id : String) (action : Action)
    (constraints : List WorkerConstraint) : List String :=
  constraints.foldl (verifyStep reg action) []

/-- The warnings a single constraint contributes to `verify`. -/
def constraintWarnings (reg : WitnessReg) (action : Action)
    (c : WorkerConstraint) : List String :=
  match reg.lookup c.witness with
  | none => []
  | some witness_fn =>
    match witness_fn action with
    | .ok warnings => warnings
    | .error _ => ["Witness execution error: " ++ c.witness]

/-- Instrumented `verify` that additionally records, in order, each witness
invocation as a `(witness_id, action)` event. -/
def witnessVerifyTraced (reg : WitnessReg) (_worker_id : String) (action : Action)
    (constraints : List WorkerConstraint) : List String × List (String × Action) :=
  constraints.foldl
    (fun acc constraint =>
      match reg.lookup constraint.witness with
      | none => acc
      | some witness_fn =>
        let invoked := acc.2 ++ [(constraint.witness, action)]
        match witness_fn action with
        | .ok warnings =>
          (if warnings.isEmpty then acc.1 else acc.1 ++ warnings, invoked)
        | .error _ =>
          (acc.1 ++ ["Witness execution error: " ++ constraint.witness], invoked))
    ([], [])

theorem verifyStep_eq (reg : WitnessReg) (action : Action)
    (acc : List String) (c : WorkerConstraint) :
    verifyStep reg action acc c = acc ++ constraintWarnings reg action c := by
  unfold verifyStep constraintWarnings
  cases hl : reg.lookup c.witness with
  | none => simp
  | some fn =>
    cases hf : fn action with
    | ok warnings => cases warnings <;> simp [hf]
    | error e => simp [hf]

theorem witnessVerify_foldl (reg : WitnessReg) (wid : String) (action : Action)
    (constraints : List WorkerConstraint) :
    ∀ acc, constraints.foldl (verifyStep reg action) acc
      = acc ++ constraints.flatMap (constraintWarnings reg action) := by
  induction constraints with
  | nil => intro acc; simp
  | cons c rest ih =>
    intro acc
    simp only [List.foldl_cons, List.flatMap_cons]
    rw [ih, verifyStep_eq, List.append_assoc]

/-- `verify` merges exactly the per-constraint warnings, in constraint
order. -/
theorem witnessVerify_eq_flatMap (reg : WitnessReg) (wid : String) (action : Action)
    (constraints : List WorkerConstraint) :
    witnessVerify reg wid action constraints
      = constraints.flatMap (constraintWarnings reg action) := by
  unfold witnessVerify
  rw [witnessVerify_foldl reg wid]
  simp

theorem witnessVerifyTraced_foldl (reg : WitnessReg) (action : Action)
    (constraints : List WorkerConstraint) :
    ∀ acc : List String × List (String × Action),
      constraints.foldl
        (fun acc constraint =>
          match reg.lookup constraint.witness with
          | none => acc
          | some witness_fn =>
            let invoked := acc.2 ++ [(constraint.witness, action)]
            match witness_fn action with
            | .ok warnings =>
              (if warnings.isEmpty then acc.1 else acc.1 ++ warnings, invoked)
            | .error _ =>
              (acc.1 ++ ["Witness execution error: " ++ constraint.witness], invoked)) acc
      = (acc.1 ++ constraints.flatMap (constraintWarnings reg action),
         acc.2 ++ (constraints.filter
            (fun c => (reg.lookup c.witness).isSome)).map (fun c => (c.witness, action))) := by
  induction constraints with
  | nil => intro acc; simp
  | cons c rest ih =>
    intro acc
    simp only [List.foldl_cons, List.flatMap_cons, List.filter_cons]
    cases hl : reg.lookup c.witness with
    | none =>
      simp only [hl, Option.isSome_none, Bool.false_eq_true, if_neg, ite_false]
      rw [ih]
      simp [constraintWarnings, hl]
    | some fn =>
      simp only [hl, Option.isSome_some, if_pos, ite_true]
      cases hf : fn action with
      | ok warnings =>
        cases warnings with
        | nil =>
          simp only [List.isEmpty_nil, ite_true]
          rw [ih]
          simp [constraintWarnings, hl, hf]
        | cons h t =>
          simp only [List.isEmpty_cons, ite_false]
          rw [ih]
          simp [constraintWarnings, hl, hf]
      | error e =>
        rw [ih]
        simp [constraintWarnings, hl, hf]

/-- The instrumented `verify` computes the same warnings and records one
invocation per constraint whose witness is registered, in order. -/
theorem witnessVerifyTraced_eq (reg : WitnessReg) (wid : String) (action : Action)
    (constraints : List WorkerConstraint) :
    witnessVerifyTraced reg wid action constraints
      = (witnessVerify reg wid action constraints,
         (constraints.filter (fun c => (reg.lookup c.witness).isSome)).map
           (fun c => (c.witness, action))) := by
  unfold witnessVerifyTraced
  rw [witnessVerifyTraced_foldl]
  simp [witnessVerify_eq_flatMap]

/-! ## The worker (`src/workers/claude_code_worker.py`, `src/workers/base.py`) -/

/-- `VoidResult` dataclass (timestamps modelled as integer ticks). -/
structure VoidResult where
  action_id : String
  success : Bool
  predicted_outcome : List (String × PyValue)
  side_effect_occurred : Bool
  simulation_timestamp : Nat
  warnings : List String

/-- `ExecutionResult` dataclass (timestamps and durations as integer ticks). -/
structure ExecutionResult where
  action_id : String
  success : Bool
  actual_outcome : List (String × PyValue)
  side_effect_occurred : Bool
  execution_timestamp : Nat
  duration_ms : Nat
  audit_log_id : String

/-- `ClaudeCodeWorker` instance state. -/
structure ClaudeCodeWorker where
  worker_id : String
  definition : WorkerDefinition
  workspace_path : String
  user_journey_id : String
  isolation_level : String := "process"
  container_id : Option String := none
  process_id : Option String := none
  container_spawned : Bool := false
  last_action_timestamp : Nat := 0
  action_count : Nat := 0
deriving DecidableEq

/-- `ClaudeCodeWorker.void(action)`: runs the constraint witnesses through the
enforcement layer, then simulates the outcome. `now` is `time.time()` and
`fresh_uuid` the generated uuid fragment. -/
def ClaudeCodeWorker.void (reg : WitnessReg) (w : ClaudeCodeWorker) (action : Action)
    (now : Nat) (fresh_uuid : String) : VoidResult :=
  let action_id := action.action_id.getD ("void_" ++ fresh_uuid)
  let warnings := witnessVerify reg w.worker_id action w.definition.constraints
  let predicted_outcome :=
    [("simulated", PyValue.vbool true),
     ("action_type", PyValue.vstr (action.type.getD "unknown")),
     ("workspace", PyValue.vstr w.workspace_path),
     ("user_journey_id", PyValue.vstr w.user_journey_id)]
  { action_id := action_id,
    success := true,
    predicted_outcome := predicted_outcome,
    side_effect_occurred := false,
    simulation_timestamp := now,
    warnings := warnings }

/-- Ghost events of one `void` call: the witness invocations, then the
computation of the prediction. -/
inductive VoidEvent where
  | witnessInvoked (witness_id : String) (action : Action)
  | predictionComputed
deriving DecidableEq

/-- `void` instrumented with its event trace; the result component equals
`ClaudeCodeWorker.void`. -/
def ClaudeCodeWorker.voidTraced (reg : WitnessReg) (w : ClaudeCodeWorker) (action : Action)
    (now : Nat) (fresh_uuid : String) : VoidResult × List VoidEvent :=
  let action_id := action.action_id.getD ("void_" ++ fresh_uuid)
  let verified := witnessVerifyTraced reg w.worker_id action w.definition.constraints
  let predicted_outcome :=
    [("simulated", PyValue.vbool true),
     ("action_type", PyValue.vstr (action.type.getD "unknown")),
     ("workspace", PyValue.vstr w.workspace_path),
     ("user_journey_id", PyValue.vstr w.user_journey_id)]
  ({ action_id := action_id,
     success := true,
     predicted_outcome := predicted_outcome,
     side_effect_occurred := false,
     simulation_timestamp := now,
     warnings := verified.1 },
   verified.2.map (fun p => VoidEvent.witnessInvoked p.1 p.2)
     ++ [VoidEvent.predictionComputed])

theorem voidTraced_fst (reg : WitnessReg) (w : ClaudeCodeWorker) (action : Action)
    (now : Nat) (fresh_uuid : String) :
    (ClaudeCodeWorker.voidTraced reg w action now fresh_uuid).1
      = ClaudeCodeWorker.void reg w action now fresh_uuid := by
  unfold ClaudeCodeWorker.voidTraced ClaudeCodeWorker.void
  rw [witnessVerifyTraced_eq]

/-- Result of `ContainerIsolation.exec_in_container`. -/
structure ContainerExecResult where
  exit_code : Int
  output : String

/-- The ambient effects one `execute` call consumes: clock readings, the uuid
fragment, the container id a spawn would produce, and the container exec
back-end. -/
structure ExecEnv where
  start_time : Nat
  end_time : Nat
  fresh_uuid : String
  spawned_container_id : String
  exec_in_container : String → String → ContainerExecResult

/-- `_ensure_container`: spawns the container on first call for
container-isolated workers, no-op otherwise. -/
def ClaudeCodeWorker.ensureContainer (env : ExecEnv) (w : ClaudeCodeWorker) :
    ClaudeCodeWorker :=
  if w.isolation_level == "container" && !w.container_spawned then
    { w with container_id := some env.spawned_container_id, container_spawned := true }
  else w

/-- Python truthiness of an optional string (`if self.container_id:`). -/
def optTruthy : Option String → Bool
  | some s => !(s == "")
  | none => false

/-- `ClaudeCodeWorker.execute(action)`: ensures the container, runs the
command (container path) or the process-isolation placeholder, bumps the
action counter, and always reports `success=True, side_effect_occurred=True`;
a non-zero exit code appears only inside `actual_outcome`. Returns the result
and the mutated worker. -/
def ClaudeCodeWorker.execute (env : ExecEnv) (w : ClaudeCodeWorker) (action : Action) :
    ExecutionResult × ClaudeCodeWorker :=
  let action_id := action.action_id.getD ("exec_" ++ env.fresh_uuid)
  let w1 := ClaudeCodeWorker.ensureContainer env w
  let actual_outcome :=
    if w1.isolation_level == "container" && optTruthy w1.container_id then
      let container_id := w1.container_id.getD ""
      let command := action.command.getD "echo 'No command specified'"
      let result := env.exec_in_container container_id command
      [("executed", PyValue.vbool true),
       ("action_type", PyValue.vstr (action.type.getD "unknown")),
       ("workspace", PyValue.vstr w1.workspace_path),
       ("user_journey_id", PyValue.vstr w1.user_journey_id),
       ("container_id", PyValue.vstr (pyTake container_id 12)),
       ("exit_code", PyValue.vint result.exit_code),
       ("output", PyValue.vstr result.output)]
    else
      [("executed", PyValue.vbool true),
       ("action_type", PyValue.vstr (action.type.getD "unknown")),
       ("workspace", PyValue.vstr w1.workspace_path),
       ("user_journey_id", PyValue.vstr w1.user_journey_id),
       ("isolation", PyValue.vstr w1.isolation_level)]
  let w2 := { w1 with
    action_count := w1.action_count + 1,
    last_action_timestamp := env.end_time }
  ({ action_id := action_id,
     success := true,
     actual_outcome := actual_outcome,
     side_effect_occurred := true,
     execution_timestamp := env.end_time,
     duration_ms := (env.end_time - env.start_time) * 1000,
     audit_log_id := "audit_" ++ w.worker_id ++ "_" ++ toString env.end_time }, w2)

theorem count_map_witnessInvoked (cs : List WorkerConstraint) (x : String) (a : Action) :
    (cs.map (fun c => VoidEvent.witnessInvoked c.witness a)).count
        (VoidEvent.witnessInvoked x a)
      = cs.countP (fun c2 => c2.witness == x) := by
  induction cs with
  | nil => rfl
  | cons c rest ih =>
    simp only [List.map_cons, List.count_cons, List.countP_cons, ih]
    by_cases h : c.witness = x
    · simp [h]
    · simp [h, VoidEvent.witnessInvoked.injEq]

/-- C1: on every `void(action)` call the platform invokes each constraint's
witness exactly once with that action (one invocation per constraint carrying
a given registered witness id), every witness invocation happens with the
call's action and precedes the computation of the worker's own prediction,
and the witnesses' warnings are merged, in constraint order, into the
returned `VoidResult.warnings`. -/
theorem c1_witness_automation (reg : WitnessReg) (w : ClaudeCodeWorker) (a : Action)
    (now : Nat) (fresh_uuid : String)
    (hreg : ∀ c ∈ w.definition.constraints, (reg.lookup c.witness).isSome = true) :
    (∀ c ∈ w.definition.constraints,
       (ClaudeCodeWorker.voidTraced reg w a now fresh_uuid).2.count
           (VoidEvent.witnessInvoked c.witness a)
         = w.definition.constraints.countP (fun c2 => c2.witness == c.witness)) ∧
    (∀ wid a2,
       VoidEvent.witnessInvoked wid a2 ∈ (ClaudeCodeWorker.voidTraced reg w a now fresh_uuid).2
       → a2 = a) ∧
    (∃ pre, (ClaudeCodeWorker.voidTraced reg w a now fresh_uuid).2
         = pre ++ [VoidEvent.predictionComputed] ∧
       ∀ e ∈ pre, ∃ wid, e = VoidEvent.witnessInvoked wid a) ∧
    (ClaudeCodeWorker.voidTraced reg w a now fresh_uuid).1.warnings
      = w.definition.constraints.flatMap (constraintWarnings reg a) := by
  have hfilter : w.definition.constraints.filter (fun c => (reg.lookup c.witness).isSome)
      = w.definition.constraints := by
    apply List.filter_eq_self.mpr
    intro c hc
    simpa using hreg c hc
  have htr : (ClaudeCodeWorker.voidTraced reg w a now fresh_uuid).2
      = (w.definition.constraints.map (fun c => VoidEvent.witnessInvoked c.witness a))
        ++ [VoidEvent.predictionComputed] := by
    unfold ClaudeCodeWorker.voidTraced
    rw [witnessVerifyTraced_eq]
    simp [hfilter]
  refine ⟨?_, ?_, ?_, ?_⟩
  · intro c hc
    rw [htr, List.count_append, count_map_witnessInvoked]
    simp
  · intro wid a2 hmem
    rw [htr] at hmem
    rcases List.mem_append.mp hmem with h | h
    · rcases List.mem_map.mp h with ⟨c, _, hc⟩
      exact (VoidEvent.witnessInvoked.injEq _ _ _ _ |>.mp hc.symm).2
    · simp at h
  · exact ⟨_, htr, by
      intro e he
      rcases List.mem_map.mp he with ⟨c, _, hc⟩
      exact ⟨c.witness, hc.symm⟩⟩
  · unfold ClaudeCodeWorker.voidTraced
    rw [witnessVerifyTraced_eq]
    simp [witnessVerify_eq_flatMap]

/-- The file-size constraint carried by the sample worker definition. -/
def fileSizeConstraint : WorkerConstraint :=
  { constraint_id := "FILE_SIZE_LIMIT",
    witness := "verify_file_size_within_limit",
    feedback := "alert_dashboard",
    value := "1000000" }

/-- A concrete declarative worker definition used to instantiate the
universally quantified theorems. -/
def sampleDefinition : WorkerDefinition :=
  { worker_id := "research_assistant_v1",
    identity := { name := "Research Assistant",
                  system_prompt := "You are a careful research assistant.",
                  onboarding_steps := [] },
    constraints := [fileSizeConstraint],
    runtime := { container := "claude-code:mcp-session",
                 workspace_template := "/workspaces/{user_journey_id}",
                 tools := ["read", "write"],
                 session_persistence := true },
    trust_level := "sandboxed",
    audit := {},
    tools := [] }

/-- A concrete spawned worker carrying `sampleDefinition`. -/
def sampleWorker : ClaudeCodeWorker :=
  { worker_id := "research_assistant_v1_j1",
    definition := sampleDefinition,
    workspace_path := "/workspaces/j1",
    user_journey_id := "j1",
    isolation_level := "process" }

/-- A small write action. -/
def smallWriteAction : Action := { type := some "write", content := some "hi" }

/-- Witness for C1: for the sample worker (one file-size constraint, built-in
registry) the trace of `void` on a small write action invokes the file-size
witness exactly once. -/
theorem c1_witness_automation_instance :
    (∀ c ∈ sampleWorker.definition.constraints,
       (builtinWitnessReg.lookup c.witness).isSome = true) ∧
    (ClaudeCodeWorker.voidTraced builtinWitnessReg sampleWorker smallWriteAction 0 "u").2.count
        (VoidEvent.witnessInvoked "verify_file_size_within_limit" smallWriteAction) = 1 := by
  refine ⟨by decide, ?_⟩
  have h := (c1_witness_automation builtinWitnessReg sampleWorker smallWriteAction 0 "u"
      (by decide)).1 fileSizeConstraint (by simp [sampleWorker, sampleDefinition])
  calc (ClaudeCodeWorker.voidTraced builtinWitnessReg sampleWorker smallWriteAction 0 "u").2.count
        (VoidEvent.witnessInvoked "verify_file_size_within_limit" smallWriteAction)
      = sampleWorker.definition.constraints.countP
          (fun c2 => c2.witness == fileSizeConstraint.witness) := h
    _ = 1 := by decide

/-- C2: `void(a)` always reports `side_effect_occurred = false`, and whenever
`execute(a)` reports success it also reports `side_effect_occurred = true`. -/
theorem c2_void_execute_contract (reg : WitnessReg) (env : ExecEnv)
    (w : ClaudeCodeWorker) (a : Action) (now : Nat) (fresh_uuid : String) :
    (ClaudeCodeWorker.void reg w a now fresh_uuid).side_effect_occurred = false ∧
    ((ClaudeCodeWorker.execute env w a).1.success = true →
      (ClaudeCodeWorker.execute env w a).1.side_effect_occurred = true) :=
  ⟨rfl, fun _ => rfl⟩

/-- A trivial execution environment for the concrete instances. -/
def sampleEnv : ExecEnv :=
  { start_time := 10,
    end_time := 12,
    fresh_uuid := "u",
    spawned_container_id := "cont_abcdef123456789",
    exec_in_container := fun _ _ => { exit_code := 7, output := "boom" } }

/-- Witness for C2 at the sample worker and a small write action. -/
theorem c2_void_execute_contract_witness :
    (ClaudeCodeWorker.void builtinWitnessReg sampleWorker smallWriteAction 0 "u").side_effect_occurred
        = false ∧
    (ClaudeCodeWorker.execute sampleEnv sampleWorker smallWriteAction).1.side_effect_occurred
        = true :=
  ⟨(c2_void_execute_contract builtinWitnessReg sampleEnv sampleWorker smallWriteAction 0 "u").1,
   (c2_void_execute_contract builtinWitnessReg sampleEnv sampleWorker smallWriteAction 0 "u").2 rfl⟩

/-- C9: `void` returns `success = true` whatever the warnings turn out to be,
and `execute` returns `success = true` for every environment — in particular
for a non-zero container exit code, which is reported only as the
`exit_code` entry of `actual_outcome`. -/
theorem c9_success_flags (reg : WitnessReg) (env : ExecEnv)
    (w : ClaudeCodeWorker) (a : Action) (now : Nat) (fresh_uuid : String) :
    (ClaudeCodeWorker.void reg w a now fresh_uuid).success = true ∧
    (ClaudeCodeWorker.execute env w a).1.success = true ∧
    (((ClaudeCodeWorker.ensureContainer env w).isolation_level = "container" ∧
        optTruthy (ClaudeCodeWorker.ensureContainer env w).container_id = true) →
      ("exit_code", PyValue.vint
          (env.exec_in_container ((ClaudeCodeWorker.ensureContainer env w).container_id.getD "")
            (a.command.getD "echo 'No command specified'")).exit_code)
        ∈ (ClaudeCodeWorker.execute env w a).1.actual_outcome) := by
  refine ⟨rfl, rfl, ?_⟩
  rintro ⟨hiso, htruthy⟩
  have hcond : (((ClaudeCodeWorker.ensureContainer env w).isolation_level == "container")
      && optTruthy (ClaudeCodeWorker.ensureContainer env w).container_id) = true := by
    rw [hiso, htruthy]; rfl
  simp [ClaudeCodeWorker.execute, hcond]

/-- A container-isolated sample worker. -/
def containerWorker : ClaudeCodeWorker :=
  { sampleWorker with isolation_level := "container" }

/-- Witness for C9: the container worker under `sampleEnv` (whose command
exits with code 7) still reports success, the failing exit code landing only
in `actual_outcome`. -/
theorem c9_success_flags_witness :
    (ClaudeCodeWorker.void builtinWitnessReg containerWorker smallWriteAction 0 "u").success
        = true ∧
    (ClaudeCodeWorker.execute sampleEnv containerWorker smallWriteAction).1.success = true ∧
    ("exit_code", PyValue.vint 7)
      ∈ (ClaudeCodeWorker.execute sampleEnv containerWorker smallWriteAction).1.actual_outcome := by
  have h := c9_success_flags builtinWitnessReg sampleEnv containerWorker smallWriteAction 0 "u"
  refine ⟨h.1, h.2.1, ?_⟩
  have h3 := h.2.2 (by constructor <;> decide)
  simpa using h3

/-! ## Worker factory (`src/workers/factory.py`) -/

/-- Replace every occurrence of `needle` by `repl` in a character list
(Python `str.format` on the single `{user_journey_id}` placeholder). -/
def replaceList (needle repl : List Char) (hay : List Char) : List Char :=
  match hay with
  | [] => []
  | c :: rest =>
    if h : needle ≠ [] ∧ needle.isPrefixOf (c :: rest) then
      repl ++ replaceList needle repl ((c :: rest).drop needle.length)
    else
      c :: replaceList needle repl rest
termination_by hay.length
decreasing_by
  · have h1 : 0 < needle.length := List.length_pos.mpr h.1
    simp only [List.length_drop, List.length_cons]
    omega
  · simp only [List.length_cons]
    omega

/-- Python `s.replace(needle, repl)` / `str.format` substitution on strings. -/
def strReplace (s needle repl : String) : String := ⟨replaceList needle.data repl.data s.data⟩

/-- The factory registry `journey_id → worker`
(`WorkerFactory._instances`). -/
abbrev FactoryInstances := List (String × ClaudeCodeWorker)

/-- Worker-factory errors: `JourneyCollision` (raised as `ValueError` by
`spawn`) and `UnknownJourney` (the `KeyError` of `kill` / the `ValueError` of
`resume`). -/
inductive FactoryError where
  | journeyCollision (user_journey_id : String)
  | unknownJourney (user_journey_id : String)
deriving DecidableEq

/-- Step 3 of `spawn`: the isolated workspace path — substitute the
`{user_journey_id}` placeholder when present, else append the journey id. -/
def workspacePathOf (definition : WorkerDefinition) (user_journey_id : String) : String :=
  let workspace_template := definition.runtime.workspace_template
  if strContains workspace_template "{user_journey_id}" then
    strReplace workspace_template "{user_journey_id}" user_journey_id
  else workspace_template ++ "/" ++ user_journey_id

/-- Step 4 of `spawn`: the freshly instantiated `ClaudeCodeWorker`. -/
def mkSpawnWorker (definition : WorkerDefinition) (user_journey_id isolation_level : String) :
    ClaudeCodeWorker :=
  { worker_id := definition.worker_id ++ "_" ++ user_journey_id,
    definition := definition,
    workspace_path := workspacePathOf definition user_journey_id,
    user_journey_id := user_journey_id,
    isolation_level := isolation_level }

/-- `WorkerFactory.spawn(definition, user_journey_id, isolation_level)`:
rejects a journey that already has a worker (`JourneyCollision`), computes the
workspace path, instantiates the worker and registers it. -/
def WorkerFactory.spawn (definition : WorkerDefinition) (user_journey_id : String)
    (isolation_level : String) (instances : FactoryInstances) :
    Except FactoryError (ClaudeCodeWorker × FactoryInstances) :=
  if (instances.lookup user_journey_id).isSome then
    .error (.journeyCollision user_journey_id)
  else
    let worker := mkSpawnWorker definition user_journey_id isolation_level
    .ok (worker, (user_journey_id, worker) :: instances)

/-- `WorkerFactory.kill(user_journey_id)`: pops the instance (raising on an
unknown journey) and lets its `cleanup()` release the resources of the
discarded worker. -/
def WorkerFactory.kill (user_journey_id : String) (instances : FactoryInstances) :
    Except FactoryError FactoryInstances :=
  match instances.lookup user_journey_id with
  | none => .error (.unknownJourney user_journey_id)
  | some _worker => .ok (instances.eraseP (fun kv => kv.1 == user_journey_id))

/-- C6: starting from a registry with no worker for journey `j`, `spawn`
succeeds and registers the worker; a second `spawn` for `j` raises
`JourneyCollision`; after `kill(j)` the registry again has no entry for `j`
and a further `spawn` succeeds, registering a fresh worker (zero actions, no
container). -/
theorem c6_journey_isolation (definition : WorkerDefinition) (jid iso : String)
    (instances : FactoryInstances) (hfree : instances.lookup jid = none) :
    ∃ w instances1,
      WorkerFactory.spawn definition jid iso instances = .ok (w, instances1) ∧
      instances1.lookup jid = some w ∧
      WorkerFactory.spawn definition jid iso instances1 = .error (.journeyCollision jid) ∧
      ∃ instances2,
        WorkerFactory.kill jid instances1 = .ok instances2 ∧
        instances2.lookup jid = none ∧
        ∃ w2 instances3,
          WorkerFactory.spawn definition jid iso instances2 = .ok (w2, instances3) ∧
          instances3.lookup jid = some w2 ∧
          w2.action_count = 0 ∧ w2.container_spawned = false := by
  have hnotsome : (instances.lookup jid).isSome = false := by rw [hfree]; rfl
  refine ⟨mkSpawnWorker definition jid iso,
    (jid, mkSpawnWorker definition jid iso) :: instances,
    ?_, ?_, ?_, instances, ?_, hfree,
    mkSpawnWorker definition jid iso,
    (jid, mkSpawnWorker definition jid iso) :: instances,
    ?_, ?_, rfl, rfl⟩
  · simp [WorkerFactory.spawn, hnotsome]
  · simp [List.lookup]
  · simp [WorkerFactory.spawn, List.lookup]
  · simp [WorkerFactory.kill, List.lookup, List.eraseP_cons_of_pos]
  · simp [WorkerFactory.spawn, hnotsome]
  · simp [List.lookup]

/-- Witness for C6: the scenario instantiated with the sample definition on
an empty registry. -/
theorem c6_journey_isolation_instance :
    (([] : FactoryInstances).lookup "j1" = none) ∧
    ∃ w instances1,
      WorkerFactory.spawn sampleDefinition "j1" "process" [] = .ok (w, instances1) ∧
      instances1.lookup "j1" = some w ∧
      WorkerFactory.spawn sampleDefinition "j1" "process" instances1
        = .error (.journeyCollision "j1") ∧
      ∃ instances2,
        WorkerFactory.kill "j1" instances1 = .ok instances2 ∧
        instances2.lookup "j1" = none ∧
        ∃ w2 instances3,
          WorkerFactory.spawn sampleDefinition "j1" "process" instances2 = .ok (w2, instances3) ∧
          instances3.lookup "j1" = some w2 ∧
          w2.action_count = 0 ∧ w2.container_spawned = false :=
  ⟨rfl, c6_journey_isolation sampleDefinition "j1" "process" [] rfl⟩

/-! ## Worker tool interface (`src/workers/mcp_server.py`,
`WorkerMarketplaceMCP._execute_in_worker`) -/

/-- The structured content of the `TextContent` responses of
`_execute_in_worker`. -/
inductive ToolResponse where
  | noWorker (journey_id : String)
  | constraintViolation (warnings : List String)
  | completed (result : ExecutionResult)

/-- Ghost events of one `_execute_in_worker` call. -/
inductive MCPEvent where
  | voidCalled (action : Action)
  | executeCalled (action : Action)
deriving DecidableEq

/-- `_execute_in_worker(journey_id, action)`: looks the worker up in the
server's `journey_id → worker` map, calls `void(action)` first, refuses with
a constraint-violation response on non-empty warnings (leaving every worker
untouched), and only otherwise calls `execute(action)`, storing the mutated
worker back. The third component is the ghost call trace. -/
def executeInWorker (reg : WitnessReg) (env : ExecEnv)
    (workers : List (String × ClaudeCodeWorker)) (journey_id : String) (action : Action)
    (now : Nat) (fresh_uuid : String) :
    ToolResponse × List (String × ClaudeCodeWorker) × List MCPEvent :=
  match workers.lookup journey_id with
  | none => (.noWorker journey_id, workers, [])
  | some worker =>
    let void_result := ClaudeCodeWorker.void reg worker action now fresh_uuid
    if !void_result.warnings.isEmpty then
      (.constraintViolation void_result.warnings, workers, [.voidCalled action])
    else
      let execPair := ClaudeCodeWorker.execute env worker action
      (.completed execPair.1,
       workers.map (fun kv => if kv.1 == journey_id then (kv.1, execPair.2) else kv),
       [.voidCalled action, .executeCalled action])

/-- C3: with a live worker for the journey, `execute_in_worker` calls `void`
first; on non-empty warnings it returns the constraint-violation response,
leaves the worker map unchanged and never calls `execute`; `execute` runs
only on empty warnings. With the built-in file-size witness registered and a
matching constraint, a write action of 2,000,000 UTF-8 bytes yields a warning
mentioning both `2000000` and `1000000`. -/
theorem c3_tool_gating (reg : WitnessReg) (env : ExecEnv)
    (workers : List (String × ClaudeCodeWorker)) (journey_id : String) (a : Action)
    (now : Nat) (fresh_uuid : String) (w : ClaudeCodeWorker)
    (hw : workers.lookup journey_id = some w) :
    ((ClaudeCodeWorker.void reg w a now fresh_uuid).warnings ≠ [] →
       executeInWorker reg env workers journey_id a now fresh_uuid
         = (.constraintViolation (ClaudeCodeWorker.void reg w a now fresh_uuid).warnings,
            workers, [.voidCalled a])) ∧
    ((ClaudeCodeWorker.void reg w a now fresh_uuid).warnings = [] →
       executeInWorker reg env workers journey_id a now fresh_uuid
         = (.completed (ClaudeCodeWorker.execute env w a).1,
            workers.map (fun kv =>
              if kv.1 == journey_id then (kv.1, (ClaudeCodeWorker.execute env w a).2) else kv),
            [.voidCalled a, .executeCalled a])) ∧
    (∀ c ∈ w.definition.constraints,
       c.witness = "verify_file_size_within_limit" →
       reg.lookup "verify_file_size_within_limit"
           = some (fun act => .ok (verify_file_size_within_limit act)) →
       a.type = some "write" →
       utf8Len (a.content.getD "") = 2000000 →
       ∃ msg ∈ (ClaudeCodeWorker.void reg w a now fresh_uuid).warnings,
         strContains msg "2000000" = true ∧ strContains msg "1000000" = true) := by
  refine ⟨?_, ?_, ?_⟩
  · intro hne
    unfold executeInWorker
    rw [hw]
    have : (ClaudeCodeWorker.void reg w a now fresh_uuid).warnings.isEmpty = false := by
      cases hwarn : (ClaudeCodeWorker.void reg w a now fresh_uuid).warnings with
      | nil => exact absurd hwarn hne
      | cons x xs => rfl
    simp [this]
  · intro hempty
    unfold executeInWorker
    rw [hw]
    have : (ClaudeCodeWorker.void reg w a now fresh_uuid).warnings.isEmpty = true := by
      rw [hempty]; rfl
    simp [this]
  · intro c hc hwit hreg hatype hlen
    have hv : (ClaudeCodeWorker.void reg w a now fresh_uuid).warnings
        = w.definition.constraints.flatMap (constraintWarnings reg a) := by
      unfold ClaudeCodeWorker.void
      rw [witnessVerify_eq_flatMap]
    have hb : (a.type == some "write") = true := by rw [hatype]; rfl
    have hcw : constraintWarnings reg a c
        = ["File size 2000000 bytes exceeds limit 1000000 bytes"] := by
      unfold constraintWarnings
      rw [hwit, hreg]
      show verify_file_size_within_limit a
          = ["File size 2000000 bytes exceeds limit 1000000 bytes"]
      unfold verify_file_size_within_limit
      rw [hb]
      simp only [if_true]
      rw [hlen]
      decide
    refine ⟨"File size 2000000 bytes exceeds limit 1000000 bytes", ?_, by decide, by decide⟩
    rw [hv, List.mem_flatMap]
    exact ⟨c, hc, by rw [hcw]; simp⟩

/-- The 2,000,000-character write content `"x" * 2_000_000`. -/
def bigContent : String := ⟨List.replicate 2000000 'x'⟩

/-- The oversized write action of scenario 6. -/
def bigWriteAction : Action := { type := some "write", content := some bigContent }

theorem utf8Len_replicate_x (n : Nat) : utf8Len ⟨List.replicate n 'x'⟩ = n := by
  unfold utf8Len
  induction n with
  | zero => rfl
  | succ k ih =>
    rw [List.replicate_succ, List.map_cons, List.sum_cons, ih]
    have hx : 'x'.utf8Size = 1 := rfl
    rw [hx]
    omega

/-- Witness for C3: the sample worker (file-size constraint, built-in
registry) refuses the 2,000,000-byte write through the tool interface: the
warning mentions both numbers, the response is the constraint violation, the
worker map is untouched and `execute` is never called. -/
theorem c3_tool_gating_instance :
    ([("j1", sampleWorker)].lookup "j1" = some sampleWorker) ∧
    (∃ msg ∈ (ClaudeCodeWorker.void builtinWitnessReg sampleWorker bigWriteAction 0 "u").warnings,
       strContains msg "2000000" = true ∧ strContains msg "1000000" = true) ∧
    executeInWorker builtinWitnessReg sampleEnv [("j1", sampleWorker)] "j1" bigWriteAction 0 "u"
      = (.constraintViolation
           (ClaudeCodeWorker.void builtinWitnessReg sampleWorker bigWriteAction 0 "u").warnings,
         [("j1", sampleWorker)], [.voidCalled bigWriteAction]) := by
  have h := c3_tool_gating builtinWitnessReg sampleEnv [("j1", sampleWorker)] "j1"
      bigWriteAction 0 "u" sampleWorker (by simp [List.lookup])
  have hmsg := h.2.2 fileSizeConstraint (by simp [sampleWorker, sampleDefinition]) rfl rfl rfl
      (utf8Len_replicate_x 2000000)
  refine ⟨by simp [List.lookup], hmsg, ?_⟩
  rcases hmsg with ⟨msg, hmem, _⟩
  exact h.1 (List.ne_nil_of_mem hmem)

/-! ## Agent injection (`src/runtime/executor.py`,
`WorkflowExecutor._inject_claude_code_nodes`) -/

/-- One entry of `claude_code_config["agents"]`. -/
structure AgentSpec where
  role_name : Option String := none
  provider : Option String := none
  inject_after : Option String := none
  inject_before : Option String := none

/-- The parts of `claude_code_config` the injection algorithm reads. -/
structure CCConfig where
  enabled : Bool := false
  agents : List AgentSpec := []

/-- The graph-builder surface the injection algorithm touches: node names and
directed edges (the LangGraph `END` sentinel is the node name `"__end__"`). -/
structure Graph where
  nodes : List String
  edges : List (String × String)
deriving DecidableEq

/-- Python truthiness of an optional string (`if not all([role_name,
inject_after])`, `if inject_before:`). -/
def optStrTruthy : Option String → Bool
  | some s => !(s == "")
  | none => false

/-- The body of the per-agent injection loop: skip incomplete specs, build the
agent node (`factoryOk` models whether `create_agent_node` succeeds for the
provider, a `ValueError` meaning skip), add the `{role}_agent` node, add the
edge `inject_after → {role}_agent`, and add `{role}_agent → inject_before`
only when `inject_before` is given. -/
def injectAgent (factoryOk : String → Bool) (wf : Graph) (agent : AgentSpec) : Graph :=
  if !(optStrTruthy agent.role_name && optStrTruthy agent.inject_after) then wf
  else
    let role_name := agent.role_name.getD ""
    let inject_after := agent.inject_after.getD ""
    let provider := agent.provider.getD "claude_code"
    let node_name := role_name ++ "_agent"
    if factoryOk provider then
      let wf1 : Graph := { wf with
        nodes := wf.nodes ++ [node_name],
        edges := wf.edges ++ [(inject_after, node_name)] }
      if optStrTruthy agent.inject_before then
        { wf1 with edges := wf1.edges ++ [(node_name, agent.inject_before.getD "")] }
      else wf1
    else wf

/-- `_inject_claude_code_nodes(workflow, module)`: returns the workflow
unchanged when there is no config, the config is disabled, or no agents are
declared; otherwise folds the per-agent injection over the agent list. -/
def injectClaudeCodeNodes (factoryOk : String → Bool) (workflow : Graph)
    (config : Option CCConfig) : Graph :=
  match config with
  | none => workflow
  | some cfg =>
    if !cfg.enabled then workflow
    else if cfg.agents.isEmpty then workflow
    else cfg.agents.foldl (injectAgent factoryOk) workflow

/-- The user graph of the failing input: one prep node, no edges yet. -/
def c5Graph : Graph := { nodes := ["prepare_research"], edges := [] }

/-- The failing agent spec: a role with `inject_after` but no
`inject_before`, exactly as shipped in `templates/with_claude_code`. -/
def c5Spec : AgentSpec :=
  { role_name := some "researcher",
    provider := some "claude_code",
    inject_after := some "prepare_research",
    inject_before := none }

/-- C5 (failing input): injecting an agent spec without `inject_before` adds
the node `researcher_agent` and the single edge
`prepare_research → researcher_agent` — the edge list shows no edge out of
`researcher_agent`, in particular none to the `__end__` sentinel, although
the executor's own log line claims `prepare_research → researcher_agent →
END`. -/
theorem c5_no_end_edge :
    injectClaudeCodeNodes (fun _ => true) c5Graph
        (some { enabled := true, agents := [c5Spec] })
      = { nodes := ["prepare_research", "researcher_agent"],
          edges := [("prepare_research", "researcher_agent")] } := by
  rfl

/-! ## CLI provider (`src/lgp/agents/claude_code_provider.py`) -/

/-- `ClaudeCodeProvider` configuration (its `__init__` defaults). -/
structure ClaudeCodeProvider where
  role_name : String := "agent"
  model : String := "sonnet"
  allowed_tools : List String := ["Read", "Grep", "Glob"]
  max_turns : Nat := 10
  cwd : String := "."
  container : Option String := none
  timeout_per_turn : Nat := 30

/-- `subprocess.run(...)` result. -/
structure SubprocessResult where
  returncode : Int
  stdout : String
  stderr : String

/-- The `RuntimeError`s `execute_task` can raise. -/
inductive ProviderError where
  | timeout (seconds : Nat)
  | claudeCodeError (result : PyValue)
  | cliFailed (returncode : Int) (stderr : String)
  | parseFailure (stdout : String)

/-- Python `d.get(key, default)` on a parsed JSON object. -/
def jget (d : List (String × PyValue)) (key : String) (default : PyValue) : PyValue :=
  (d.lookup key).getD default

/-- Python truthiness of a JSON value. -/
def pyTruthy : PyValue → Bool
  | .vstr s => !(s == "")
  | .vint n => !(n == 0)
  | .vfloat q => !(decide (q = 0))
  | .vbool b => b
  | .vnone => false
  | .vlist xs => !xs.isEmpty
  | .vdict es => !es.isEmpty

/-- `_build_command(prompt, session_id)`: the docker prefix when a container
is configured, the core claude flags, and `--resume <session_id>` appended
when a (truthy) session id is supplied. -/
def ClaudeCodeProvider.buildCommand (p : ClaudeCodeProvider) (prompt : String)
    (session_id : Option String) : List String :=
  let cmd : List String :=
    match p.container with
    | some c => if !(c == "") then ["docker", "exec", c] else []
    | none => []
  let cmd := cmd ++ ["claude", "-p", prompt, "--output-format", "json",
    "--model", p.model, "--max-turns", toString p.max_turns,
    "--allowedTools", String.intercalate "," p.allowed_tools]
  match session_id with
  | some sid => if !(sid == "") then cmd ++ ["--resume", sid] else cmd
  | none => cmd

/-- `_parse_response(response)`: the partial state update
`{role}_output / {role}_session_id / {role}_tokens`. -/
def ClaudeCodeProvider.parseResponse (p : ClaudeCodeProvider)
    (response : List (String × PyValue)) : List (String × PyValue) :=
  [(p.role_name ++ "_output", jget response "result" (.vstr "")),
   (p.role_name ++ "_session_id", jget response "session_id" .vnone),
   (p.role_name ++ "_tokens", .vdict
     [("cost", jget response "total_cost_usd" (.vfloat 0)),
      ("turns", jget response "num_turns" (.vint 0)),
      ("duration_ms", jget response "duration_ms" (.vint 0)),
      ("duration_api_ms", jget response "duration_api_ms" (.vint 0))])]

/-- `_handle_error(result)`: on a non-zero exit code, raise the JSON
`is_error` message when stdout parses and flags an error, else the stderr
failure; on exit code zero, no error. -/
def handleError (jdecode : String → Option (List (String × PyValue)))
    (result : SubprocessResult) : Option ProviderError :=
  if result.returncode ≠ 0 then
    match jdecode result.stdout with
    | some error_data =>
      if pyTruthy (jget error_data "is_error" .vnone) then
        some (.claudeCodeError (jget error_data "result" (.vstr "Unknown error")))
      else some (.cliFailed result.returncode result.stderr)
    | none => some (.cliFailed result.returncode result.stderr)
  else none

/-- `execute_task(task, state, config)`: read `{role}_session_id` from the
input state, build the CLI command (passing the session id as the resume
hint), run the transport with timeout `max_turns * timeout_per_turn`
(`runCli` returning `none` models `TimeoutExpired`), handle errors, parse
stdout as JSON (`jdecode`), and return the parsed partial update. -/
def ClaudeCodeProvider.executeTask (p : ClaudeCodeProvider) (task : String)
    (state : List (String × String))
    (runCli : List String → Nat → Option SubprocessResult)
    (jdecode : String → Option (List (String × PyValue))) :
    Except ProviderError (List (String × PyValue)) :=
  let session_key := p.role_name ++ "_session_id"
  let session_id := state.lookup session_key
  let cmd := p.buildCommand task session_id
  let timeout_s := p.max_turns * p.timeout_per_turn
  match runCli cmd timeout_s with
  | none => .error (.timeout timeout_s)
  | some result =>
    match handleError jdecode result with
    | some e => .error e
    | none =>
      match jdecode result.stdout with
      | none => .error (.parseFailure result.stdout)
      | some response => .ok (p.parseResponse response)

/-- The provider of the C7 scenario: role `researcher`, all other settings
defaulted. -/
def c7Provider : ClaudeCodeProvider := { role_name := "researcher" }

/-- Counterexample to C7 as stated: a state where `researcher_session_id` is
present but the empty string (exactly how the repository's own test states
initialise it). The key is present, yet the built command carries no
`--resume` flag: presence alone does not produce the resume hint, truthiness
does. -/
theorem c7_empty_session_counterexample :
    (([("researcher_session_id", "")] : List (String × String)).lookup
        (c7Provider.role_name ++ "_session_id") = some "") ∧
    (c7Provider.buildCommand "Analyze README.md"
        (([("researcher_session_id", "")] : List (String × String)).lookup
          (c7Provider.role_name ++ "_session_id"))).contains "--resume" = false := by
  exact ⟨rfl, by decide⟩

/-- C7 (amended): `execute_task` reads `{role}_session_id` from the input
state; when it is present and non-empty it is passed to the transport as the
`--resume` flag of the built command; and on success the session id returned
by the transport is written back into the returned partial update under
`{role}_session_id`. -/
theorem c7_session_continuity (p : ClaudeCodeProvider) (task : String)
    (state : List (String × String))
    (runCli : List String → Nat → Option SubprocessResult)
    (jdecode : String → Option (List (String × PyValue))) :
    (∀ s, state.lookup (p.role_name ++ "_session_id") = some s → s ≠ "" →
       p.buildCommand task (state.lookup (p.role_name ++ "_session_id"))
         = p.buildCommand task none ++ ["--resume", s]) ∧
    (∀ upd, p.executeTask task state runCli jdecode = .ok upd →
       ∃ result response,
         runCli (p.buildCommand task (state.lookup (p.role_name ++ "_session_id")))
             (p.max_turns * p.timeout_per_turn) = some result ∧
         jdecode result.stdout = some response ∧
         (p.role_name ++ "_session_id", jget response "session_id" PyValue.vnone) ∈ upd) := by
  constructor
  · intro s hs hne
    rw [hs]
    unfold ClaudeCodeProvider.buildCommand
    have : (s == "") = false := by
      cases hb : s == "" with
      | true => exact absurd (by simpa using hb) hne
      | false => rfl
    simp [this]
  · intro upd hok
    simp only [ClaudeCodeProvider.executeTask] at hok
    cases hrun : runCli (p.buildCommand task (state.lookup (p.role_name ++ "_session_id")))
        (p.max_turns * p.timeout_per_turn) with
    | none => rw [hrun] at hok; simp at hok
    | some result =>
      rw [hrun] at hok
      dsimp only at hok
      cases herr : handleError jdecode result with
      | some e => rw [herr] at hok; simp at hok
      | none =>
        rw [herr] at hok
        cases hdec : jdecode result.stdout with
        | none => rw [hdec] at hok; simp at hok
        | some response =>
          rw [hdec] at hok
          simp only [Except.ok.injEq] at hok
          refine ⟨result, response, rfl, hdec, ?_⟩
          rw [← hok]
          unfold ClaudeCodeProvider.parseResponse
          simp

/-- Constant transport oracle: a clean exit with a fixed stdout document. -/
def c7RunCli : List String → Nat → Option SubprocessResult :=
  fun _ _ => some { returncode := 0, stdout := "{}", stderr := "" }

/-- Constant JSON decoder: a response carrying a result and a session id. -/
def c7Jdecode : String → Option (List (String × PyValue)) :=
  fun _ => some [("result", PyValue.vstr "done"), ("session_id", PyValue.vstr "sess_42")]

/-- Witness for C7: with a non-empty stored session id the built command ends
in `--resume sess_41`, and the update returned by `execute_task` carries the
transport's session id under `researcher_session_id`. -/
theorem c7_session_continuity_instance :
    (c7Provider.buildCommand "t"
        (([("researcher_session_id", "sess_41")] : List (String × String)).lookup
          (c7Provider.role_name ++ "_session_id"))
      = c7Provider.buildCommand "t" none ++ ["--resume", "sess_41"]) ∧
    ∃ upd, c7Provider.executeTask "t" [("researcher_session_id", "sess_41")] c7RunCli c7Jdecode
        = .ok upd ∧
      ∃ result response,
        c7RunCli (c7Provider.buildCommand "t"
            (([("researcher_session_id", "sess_41")] : List (String × String)).lookup
              (c7Provider.role_name ++ "_session_id")))
            (c7Provider.max_turns * c7Provider.timeout_per_turn) = some result ∧
        c7Jdecode result.stdout = some response ∧
        (c7Provider.role_name ++ "_session_id", jget response "session_id" PyValue.vnone) ∈ upd := by
  have h := c7_session_continuity c7Provider "t" [("researcher_session_id", "sess_41")]
      c7RunCli c7Jdecode
  exact ⟨h.1 "sess_41" rfl (by decide), _, rfl, h.2 _ rfl⟩

/-! ## Definition validator (`src/workers/definitions/validator.py`)

A small derivative-based matcher models the `re.search` calls of the
forbidden-pattern scan (IGNORECASE throughout; `\s` and `\w` in their ASCII
reading, which covers every string the patterns are applied to here). -/

/-- Regular expressions over character classes. -/
inductive RE where
  | fail
  | eps
  | tok (p : Char → Bool)
  | cat (a b : RE)
  | alt (a b : RE)
  | star (a : RE)

/-- Does the regex accept the empty string? -/
def RE.nullable : RE → Bool
  | .fail => false
  | .eps => true
  | .tok _ => false
  | .cat a b => a.nullable && b.nullable
  | .alt a b => a.nullable || b.nullable
  | .star _ => true

/-- Brzozowski derivative. -/
def RE.deriv : RE → Char → RE
  | .fail, _ => .fail
  | .eps, _ => .fail
  | .tok p, c => if p c then .eps else .fail
  | .cat a b, c =>
    if a.nullable then .alt (.cat (a.deriv c) b) (b.deriv c)
    else .cat (a.deriv c) b
  | .alt a b, c => .alt (a.deriv c) (b.deriv c)
  | .star a, c => .cat (a.deriv c) (.star a)

/-- Does some prefix of `l` match `r`? -/
def reMatchesSomeStart (r : RE) : List Char → Bool
  | [] => r.nullable
  | c :: rest => r.nullable || reMatchesSomeStart (r.deriv c) rest

/-- `re.search(r, s)` without MULTILINE anchors: a match starting anywhere. -/
def reSearch (r : RE) : List Char → Bool
  | [] => r.nullable
  | c :: rest => reMatchesSomeStart r (c :: rest) || reSearch r rest

/-- A match starting right after some newline. -/
def reSearchAfterNewline (r : RE) : List Char → Bool
  | [] => false
  | c :: rest => (c == '\n' && reMatchesSomeStart r rest) || reSearchAfterNewline r rest

/-- `re.search` of a `^`-anchored pattern under MULTILINE: a match starting at
the beginning of the string or right after a newline. -/
def reSearchML (r : RE) (l : List Char) : Bool :=
  reMatchesSomeStart r l || reSearchAfterNewline r l

/-- A case-insensitive literal character (the scan passes `re.IGNORECASE`). -/
def litCI (c : Char) : RE := .tok (fun x => x.toLower == c.toLower)

/-- A case-insensitive literal string. -/
def strRE (s : String) : RE := s.data.foldr (fun c r => .cat (litCI c) r) .eps

/-- ASCII `\s`. -/
def wsCharB (c : Char) : Bool :=
  c == ' ' || c == '\t' || c == '\n' || c == '\r' || c == '\x0b' || c == '\x0c'

/-- `\s*`. -/
def wsStar : RE := .star (.tok wsCharB)

/-- `\s+`. -/
def wsPlus : RE := .cat (.tok wsCharB) wsStar

/-- ASCII `\w` (and the character class `[a-zA-Z0-9_]`). -/
def wordCharB (c : Char) : Bool := c.isAlphanum || c == '_'

/-- `\w+`. -/
def wordPlus : RE := .cat (.tok wordCharB) (.star (.tok wordCharB))

/-- `.` (anything but a newline). -/
def dotCharB (c : Char) : Bool := !(c == '\n')

/-- `.+`. -/
def dotPlus : RE := .cat (.tok dotCharB) (.star (.tok dotCharB))

/-- `FORBIDDEN_PATTERNS`: each raw pattern string paired with its `re.search`
semantics. -/
def FORBIDDEN_PATTERNS : List (String × (String → Bool)) :=
  [("__import__", fun t => reSearch (strRE "__import__") t.data),
   ("exec\\s*\\(", fun t => reSearch (.cat (strRE "exec") (.cat wsStar (litCI '('))) t.data),
   ("eval\\s*\\(", fun t => reSearch (.cat (strRE "eval") (.cat wsStar (litCI '('))) t.data),
   ("compile\\s*\\(", fun t => reSearch (.cat (strRE "compile") (.cat wsStar (litCI '('))) t.data),
   ("globals\\s*\\(", fun t => reSearch (.cat (strRE "globals") (.cat wsStar (litCI '('))) t.data),
   ("locals\\s*\\(", fun t => reSearch (.cat (strRE "locals") (.cat wsStar (litCI '('))) t.data),
   ("os\\.system", fun t => reSearch (strRE "os.system") t.data),
   ("subprocess\\.", fun t => reSearch (strRE "subprocess.") t.data),
   ("popen", fun t => reSearch (strRE "popen") t.data),
   ("open\\s*\\(", fun t => reSearch (.cat (strRE "open") (.cat wsStar (litCI '('))) t.data),
   ("__file__", fun t => reSearch (strRE "__file__") t.data),
   ("lambda\\s+", fun t => reSearch (.cat (strRE "lambda") wsPlus) t.data),
   ("def\\s+\\w+\\s*\\(", fun t => reSearch
     (.cat (strRE "def") (.cat wsPlus (.cat wordPlus (.cat wsStar (litCI '('))))) t.data),
   ("class\\s+\\w+", fun t => reSearch (.cat (strRE "class") (.cat wsPlus wordPlus)) t.data),
   ("^\\s*import\\s+", fun t => reSearchML (.cat wsStar (.cat (strRE "import") wsPlus)) t.data),
   ("^\\s*from\\s+.+\\s+import", fun t => reSearchML
     (.cat wsStar (.cat (strRE "from") (.cat wsPlus (.cat dotPlus
       (.cat wsPlus (strRE "import")))))) t.data)]

/-- The validator's own witness registry (`WITNESS_REGISTRY` in
`validator.py`) — only key membership is ever consulted. -/
def VALIDATOR_WITNESS_IDS : List String :=
  ["response_time_under_5s", "all_actions_logged", "session_persisted"]

/-- `re.match(r'^[a-zA-Z0-9_]+$', s)`: at least one word character from the
start to the end (Python's `$` also matches just before one final
newline). -/
def workerIdMatches (s : String) : Bool :=
  let l := s.data
  let core := if l.getLast? == some '\n' then l.dropLast else l
  !core.isEmpty && core.all wordCharB

/-- The string fields the pattern scan inspects, in order. -/
def textFields (worker : WorkerDefinition) : List (String × String) :=
  [("identity.name", worker.identity.name),
   ("identity.system_prompt", worker.identity.system_prompt),
   ("runtime.container", worker.runtime.container),
   ("runtime.workspace_template", worker.runtime.workspace_template)]
  ++ worker.identity.onboarding_steps.enum.map
      (fun p => ("identity.onboarding_steps[" ++ toString p.1 ++ "]", p.2))
  ++ worker.constraints.enum.flatMap
      (fun p => [("constraints[" ++ toString p.1 ++ "].witness", p.2.witness),
                 ("constraints[" ++ toString p.1 ++ "].feedback", p.2.feedback),
                 ("constraints[" ++ toString p.1 ++ "].value", p.2.value)])

/-- The first `(field, pattern)` hit of the layer-3 scan, if any. -/
def findForbiddenPattern (fields : List (String × String)) : Option (String × String) :=
  fields.findSome? (fun fld =>
    (FORBIDDEN_PATTERNS.find? (fun pat => pat.2 fld.2)).map (fun pat => (fld.1, pat.1)))

/-- `validate_worker_definition(worker) -> (is_valid, error_message)`:
layer 4 worker-id checks, the layer 3 pattern scan over every text field, the
witness-reference check against the validator's own registry, and the
trust-level check. -/
def validate_worker_definition (worker : WorkerDefinition) : Bool × Option String :=
  if worker.worker_id == "" then
    (false, some "worker_id cannot be empty")
  else if !(workerIdMatches worker.worker_id) then
    (false, some ("Invalid worker_id '" ++ worker.worker_id
      ++ "': Only alphanumeric and underscore allowed"))
  else
    match findForbiddenPattern (textFields worker) with
    | some fp =>
      (false, some ("Forbidden code pattern detected in " ++ fp.1 ++ ": '" ++ fp.2
        ++ "'. Worker definitions must be declarative (no executable code)."))
    | none =>
      match worker.constraints.find? (fun c =>
          !(c.witness == "") && !(VALIDATOR_WITNESS_IDS.contains c.witness)) with
      | some c =>
        (false, some ("Unknown witness function '" ++ c.witness
          ++ "'. Available witnesses: " ++ String.intercalate ", " VALIDATOR_WITNESS_IDS))
      | none =>
        if !(["trusted", "sandboxed", "restricted"].contains worker.trust_level) then
          (false, some ("Invalid trust_level '" ++ worker.trust_level
            ++ "'. Must be one of: "
            ++ String.intercalate ", " ["trusted", "sandboxed", "restricted"]))
        else (true, none)

theorem bool_true_of_not_not {b : Bool} (h : ¬((!b) = true)) : b = true := by
  cases b with
  | true => rfl
  | false => exact absurd rfl h

theorem bool_false_of_not {b : Bool} (h : ¬(b = true)) : b = false := by
  cases b with
  | true => exact absurd rfl h
  | false => rfl

/-- Acceptance characterisation of the validator. -/
theorem validate_accepts_iff (worker : WorkerDefinition) :
    (validate_worker_definition worker).1 = true ↔
      ((worker.worker_id == "") = false ∧
       workerIdMatches worker.worker_id = true ∧
       findForbiddenPattern (textFields worker) = none ∧
       worker.constraints.find? (fun c =>
         !(c.witness == "") && !(VALIDATOR_WITNESS_IDS.contains c.witness)) = none ∧
       (["trusted", "sandboxed", "restricted"].contains worker.trust_level) = true) := by
  unfold validate_worker_definition
  constructor
  · intro hok
    split at hok
    · simp at hok
    · next h1 =>
      split at hok
      · simp at hok
      · next h2 =>
        split at hok
        · simp at hok
        · next h3 =>
          split at hok
          · simp at hok
          · next h4 =>
            split at hok
            · simp at hok
            · next h5 =>
              exact ⟨bool_false_of_not h1, bool_true_of_not_not h2, h3, h4,
                bool_true_of_not_not h5⟩
  · rintro ⟨h1, h2, h3, h4, h5⟩
    split
    · next hcond => rw [h1] at hcond; simp at hcond
    · split
      · next hcond => rw [h2] at hcond; simp at hcond
      · split
        · next fp heq => rw [h3] at heq; simp at heq
        · split
          · next c heqf => rw [h4] at heqf; simp at heqf
          · split
            · next hcond => rw [h5] at hcond; simp at hcond
            · rfl

/-- C4 (amended): the semantic validation layer accepts a definition only if
every constraint's non-empty witness identifier resolves in the validator's
own internal registry (`response_time_under_5s`, `all_actions_logged`,
`session_persisted` — not the enforcement registry of §4.J), `trust_level` is
one of trusted/sandboxed/restricted, and `worker_id` matches
`^[a-zA-Z0-9_]+$`; conversely a definition whose witnesses are all in the
validator's registry passes the witness-resolution check. -/
theorem c4_validator_semantics (worker : WorkerDefinition)
    (hok : (validate_worker_definition worker).1 = true) :
    (∀ c ∈ worker.constraints, c.witness ≠ "" →
       VALIDATOR_WITNESS_IDS.contains c.witness = true) ∧
    (["trusted", "sandboxed", "restricted"].contains worker.trust_level) = true ∧
    workerIdMatches worker.worker_id = true ∧
    ((∀ c ∈ worker.constraints, VALIDATOR_WITNESS_IDS.contains c.witness = true) →
      worker.constraints.find? (fun c =>
        !(c.witness == "") && !(VALIDATOR_WITNESS_IDS.contains c.witness)) = none) := by
  obtain ⟨h1, h2, h3, h4, h5⟩ := (validate_accepts_iff worker).mp hok
  refine ⟨?_, h5, h2, ?_⟩
  · intro c hc hne
    have ha : (c.witness == "") = false := by simpa using hne
    have hb := List.find?_eq_none.mp h4 c hc
    rw [ha] at hb
    simpa using hb
  · intro hall
    rw [List.find?_eq_none]
    intro c hc
    have hmem : c.witness ∈ VALIDATOR_WITNESS_IDS := by simpa using hall c hc
    simp [hmem]

/-- A definition referencing the enforcement registry's
`verify_file_size_within_limit` witness: well-formed id, clean strings, valid
trust level. -/
def c4BadDefinition : WorkerDefinition :=
  { worker_id := "file_worker",
    identity := { name := "W", system_prompt := "Helpful.", onboarding_steps := [] },
    constraints := [{ constraint_id := "FSL", witness := "verify_file_size_within_limit",
                      feedback := "alert_dashboard", value := "1000000" }],
    runtime := { container := "cc", workspace_template := "/w",
                 tools := [], session_persistence := true },
    trust_level := "sandboxed", audit := {}, tools := [] }

/-- Counterexample to C4 as stated: `verify_file_size_within_limit` is
registered in the §4.J enforcement registry, yet the validator rejects a
clean definition referencing it with the unknown-witness error — the
validator consults its own disjoint registry, not the enforcement one. -/
theorem c4_registry_counterexample :
    (builtinWitnessReg.lookup "verify_file_size_within_limit").isSome = true ∧
    (VALIDATOR_WITNESS_IDS.filter
        (fun name => (builtinWitnessReg.lookup name).isSome)) = [] ∧
    (validate_worker_definition c4BadDefinition).1 = false ∧
    (validate_worker_definition c4BadDefinition).2
      = some ("Unknown witness function 'verify_file_size_within_limit'. "
          ++ "Available witnesses: response_time_under_5s, all_actions_logged, "
          ++ "session_persisted") := by
  refine ⟨rfl, rfl, by decide, by decide⟩

/-- A definition referencing the validator's own `response_time_under_5s`
witness. -/
def c4GoodDefinition : WorkerDefinition :=
  { worker_id := "timed_worker",
    identity := { name := "W", system_prompt := "Helpful.", onboarding_steps := [] },
    constraints := [{ constraint_id := "RT", witness := "response_time_under_5s",
                      feedback := "log", value := "5" }],
    runtime := { container := "cc", workspace_template := "/w",
                 tools := [], session_persistence := true },
    trust_level := "trusted", audit := {}, tools := [] }

/-- Witness for C4 (amended): a definition whose witness id is in the
validator's registry is accepted, and the amended necessary conditions hold
for it. -/
theorem c4_validator_semantics_instance :
    (validate_worker_definition c4GoodDefinition).1 = true ∧
    (∀ c ∈ c4GoodDefinition.constraints, c.witness ≠ "" →
       VALIDATOR_WITNESS_IDS.contains c.witness = true) ∧
    (["trusted", "sandboxed", "restricted"].contains c4GoodDefinition.trust_level) = true ∧
    workerIdMatches c4GoodDefinition.worker_id = true := by
  have h := c4_validator_semantics c4GoodDefinition (by decide)
  exact ⟨by decide, h.1, h.2.1, h.2.2.1⟩

end LGP
